import Mathlib

/-!
Verification of the DHCPv6 JSON configuration engine
(src/bin/dhcp6/json_config_parser.cc).

The development shallowly embeds the configuration entry point
`configureDhcp6Server`, the commit-pipeline helper
`configureCommandChannel` and the RSOO list parser
`RSOOListConfigParser::parse`.  External collaborators (the section
parsers living in dhcpsrv, SimpleParser6 default filling, the hook
loader, the command-socket manager, LibDHCP standard option lookup)
are modelled as an explicit environment of fallible functions, since
their bodies are outside this translation unit.  Side effects are
recorded both as state updates and as an explicit event trace.
-/

/-- Configuration tree node (isc::data::Element): a tagged union of
string, integer, boolean, list and map, each node carrying a source
position rendered as a string. -/
inductive Elem where
  | vstr : String → String → Elem
  | vint : Int → String → Elem
  | vbool : Bool → String → Elem
  | vlist : List Elem → String → Elem
  | vmap : List (String × Elem) → String → Elem

mutual

/-- Element::equals: structural comparison of two nodes.  Source
positions are metadata and take no part in the comparison. -/
def elemEq : Elem → Elem → Bool
  | Elem.vstr s _, Elem.vstr t _ => s == t
  | Elem.vint n _, Elem.vint m _ => n == m
  | Elem.vbool b _, Elem.vbool c _ => b == c
  | Elem.vlist xs _, Elem.vlist ys _ => elemListEq xs ys
  | Elem.vmap xs _, Elem.vmap ys _ => entryListEq xs ys
  | _, _ => false

/-- Structural comparison of list contents. -/
def elemListEq : List Elem → List Elem → Bool
  | [], [] => true
  | x :: xs, y :: ys => elemEq x y && elemListEq xs ys
  | _, _ => false

/-- Structural comparison of map contents. -/
def entryListEq : List (String × Elem) → List (String × Elem) → Bool
  | [], [] => true
  | (k, x) :: xs, (l, y) :: ys => k == l && elemEq x y && entryListEq xs ys
  | _, _ => false

end

/-- Source position of a node (Element::getPosition). -/
def Elem.getPos : Elem → String
  | .vstr _ p => p
  | .vint _ p => p
  | .vbool _ p => p
  | .vlist _ p => p
  | .vmap _ p => p

/-- Exceptions: isc::Exception carrying a message (what()), or any
other thrown object (the `catch (...)` case). -/
inductive Ex where
  | isc : String → Ex
  | other : Ex
deriving DecidableEq

/-- Result of isc::config::createAnswer: a numeric status and a text. -/
structure Answer where
  status : Nat
  text : String
deriving DecidableEq

/-- Lexicographic comparison of character lists (std::string order). -/
def charListLt : List Char → List Char → Bool
  | [], [] => false
  | [], _ :: _ => true
  | _ :: _, [] => false
  | a :: as, b :: bs =>
    if a.toNat < b.toNat then true
    else if b.toNat < a.toNat then false
    else charListLt as bs

/-- Lexicographic string comparison (std::string operator less). -/
def strLt (a b : String) : Bool := charListLt a.data b.data

/-- Helper for insertion into a sorted entry list (std::map order). -/
def insertEntry (p : String × Elem) : List (String × Elem) → List (String × Elem)
  | [] => [p]
  | q :: rest => if strLt p.1 q.1 then p :: q :: rest else q :: insertEntry p rest

/-- Entries of an Element map in std::map iteration order (sorted by
key), as produced by Element::mapValue. -/
def sortEntries : List (String × Elem) → List (String × Elem)
  | [] => []
  | p :: rest => insertEntry p (sortEntries rest)

/-- Looks up a key in a raw entry list. -/
def findEntry (k : String) : List (String × Elem) → Option Elem
  | [] => none
  | q :: rest => if q.1 = k then some q.2 else findEntry k rest

/-- Element::get on a map node; absent keys and non-map nodes give none. -/
def Elem.get : Elem → String → Option Elem
  | .vmap xs _, k => findEntry k xs
  | _, _ => none

/-- Replaces or inserts a key in a raw entry list (Element::set). -/
def mapSetEntries (k : String) (v : Elem) : List (String × Elem) → List (String × Elem)
  | [] => [(k, v)]
  | q :: rest => if q.1 = k then (k, v) :: rest else q :: mapSetEntries k v rest

/-- Element::set on a map node; other nodes are returned unchanged. -/
def mapSet : Elem → String → Elem → Elem
  | Elem.vmap xs p, k, v => Elem.vmap (mapSetEntries k v xs) p
  | e, _, _ => e

/-- Element::mapValue: the ordered entries of a map node; a non-map
node throws a TypeError. -/
def mapValue : Elem → Except Ex (List (String × Elem))
  | Elem.vmap xs _ => Except.ok (sortEntries xs)
  | _ => Except.error (Ex.isc "mapValue() called on non-map Element")

/-- Digit-accumulation helper for boost::lexical_cast to int64_t. -/
def digitsValGo (acc : Nat) : List Char → Option Nat
  | [] => some acc
  | c :: rest => if c.isDigit then digitsValGo (acc * 10 + (c.toNat - 48)) rest else none

/-- Value of a non-empty all-digit character list, none otherwise. -/
def digitsVal : List Char → Option Nat
  | [] => none
  | c :: rest => digitsValGo 0 (c :: rest)

/-- boost::lexical_cast of a string to int64_t: an optional sign
followed by digits, the whole string consumed, value within the
int64_t range; any other input throws bad_lexical_cast (none here). -/
def parseInt64 (s : String) : Option Int :=
  match s.data with
  | [] => none
  | c :: rest =>
    let sgn : Bool × List Char :=
      if c = '-' then (true, rest)
      else if c = '+' then (false, rest)
      else (false, c :: rest)
    match digitsVal sgn.2 with
    | none => none
    | some v =>
      let i : Int := if sgn.1 then -(v : Int) else (v : Int)
      if -(2 ^ 63) ≤ i ∧ i ≤ 2 ^ 63 - 1 then some i else none

/-- Name-lookup fallback of RSOOListConfigParser::parse: the entry is
looked up as an option name in the DHCPv6 standard option space. -/
def rsooNameLookup (lookup : String → Option Int) (s : String) : Except Ex Int :=
  match lookup s with
  | some c => Except.ok c
  | none => Except.error (Ex.isc ("unable to find option code for the " ++
      " specified option name \x27" ++ s ++ "\x27 while parsing the list of enabled" ++
      " relay-supplied-options"))

/-- One entry of the relay-supplied-options list
(RSOOListConfigParser::parse loop body): try a numeric code first,
reject negative or too-large codes, and fall back to a name lookup
when the entry is not a number or its numeric value is zero. -/
def parseRSOOEntry (lookup : String → Option Int) (s : String) : Except Ex Int :=
  match parseInt64 s with
  | some n =>
    if n < 0 then
      Except.error (Ex.isc ("invalid option code value specified \x27" ++ s ++
        "\x27, the option code must be a non-negative value"))
    else if 65535 < n then
      Except.error (Ex.isc ("invalid option code value specified \x27" ++ s ++
        "\x27, the option code must not be greater than \x2765535\x27"))
    else if n = 0 then rsooNameLookup lookup s
    else Except.ok n
  | none => rsooNameLookup lookup s

/-- The staging server configuration object (isc::dhcp::SrvConfig),
restricted to the members written by this translation unit's dispatch
loop.  Fragments produced by external section parsers are kept as
opaque tree values. -/
structure SrvConfig where
  cfgOptionDef : List Elem := []
  cfgOption : List Elem := []
  macSources : List Elem := []
  controlSocket : Option Elem := none
  cfgDUID : Option Elem := none
  cfgIface : Option Elem := none
  hooksLibraries : List String := []
  d2Config : Option Elem := none
  clientClasses : Option Elem := none
  dbAccessLease : Option Elem := none
  dbAccessHosts : Option Elem := none
  subnets : List (Nat × Elem) := []
  rsoo : List Int := []
  declinePeriod : Nat := 0
  dhcp4o6Port : Nat := 0

/-- A brand-new SrvConfig, as constructed for a fresh staging slot. -/
def freshSrvConfig : SrvConfig := {}

/-- Runtime option definitions held by LibDHCP (an
OptionDefSpaceContainer), kept opaque. -/
def RuntimeDefs := List Elem

/-- The empty OptionDefSpaceContainer. -/
def emptyDefs : RuntimeDefs := []

/-- LibDHCP state for runtime option definitions: the live container
and the last committed one.  revertRuntimeOptionDefs restores the live
container from the committed one. -/
structure LibState where
  runtime : RuntimeDefs
  committed : RuntimeDefs

/-- CfgMgr's configuration slots: the staging configuration being
assembled and the current (effective) configuration. -/
structure CfgMgrState where
  staging : SrvConfig
  current : SrvConfig

/-- Whole-server state touched by configureDhcp6Server: LibDHCP
runtime definitions, the CfgMgr slots, the static subnet-id counter,
the open command socket and the active D2 client configuration. -/
structure ServerState where
  lib : LibState
  cfgMgr : CfgMgrState
  subnetCounter : Nat
  activeSocket : Option Elem
  d2Active : Option Elem

/-- Observable side-effecting calls made during a configuration run. -/
inductive Event where
  | resetIds : Event
  | unregisterTimers : Event
  | revertDefs : Event
  | setDefs : Event
  | sectionParse : String → Event
  | globalParse : Event
  | closeSocket : Event
  | openSocket : Elem → Event
  | setD2 : Event
  | loadHooks : List String → Event

/-- Environment of external collaborators: the dhcpsrv section
parsers, SimpleParser6 preprocessing, SimpleParser accessors, LibDHCP
standard option lookup, the command socket opener and the hook
library loader.  Their bodies live outside this translation unit, so
they are arbitrary fallible functions here. -/
structure ParserEnv where
  setAllDefaults : Elem → Except Ex Elem
  deriveParameters : Elem → Except Ex Elem
  optionDefList : SrvConfig → Elem → Except Ex SrvConfig
  optionDataList : SrvConfig → Elem → Except Ex SrvConfig
  macSourcesList : SrvConfig → Elem → Except Ex SrvConfig
  controlSocketCfg : SrvConfig → Elem → Except Ex SrvConfig
  hostReservationIds : Elem → Except Ex Unit
  duidCfg : SrvConfig → Elem → Except Ex SrvConfig
  ifacesCfg : SrvConfig → Elem → Except Ex SrvConfig
  expirationCfg : Elem → Except Ex Unit
  hooksLibrariesList : Elem → Except Ex (List String)
  verifyLibraries : List String → String → Except Ex Unit
  d2ClientCfg : Elem → Except Ex Elem
  clientClassDefList : Elem → Except Ex Elem
  dbAccessLeaseCfg : SrvConfig → Elem → Except Ex SrvConfig
  dbAccessHostsCfg : SrvConfig → Elem → Except Ex SrvConfig
  subnets6List : SrvConfig → Nat → Elem → Except Ex (SrvConfig × Nat)
  stdOptionDef : String → Option Int
  getUint32 : Elem → String → Except Ex Nat
  getUint16 : Elem → String → Except Ex Nat
  openSocket : Elem → Except Ex Unit
  loadLibraries : List String → Except Ex Unit

/-- Element::stringValue: a non-string node throws a TypeError. -/
def rsooStringValue : Elem → Except Ex String
  | Elem.vstr s _ => Except.ok s
  | _ => Except.error (Ex.isc "stringValue() called on non-string Element")

/-- Inner loop of RSOOListConfigParser::parse: each entry is read as a
string, resolved to an option code and enabled in the RSOO list. -/
def rsooParseItems (lookup : String → Option Int) (cfg : SrvConfig) :
    List Elem → Except Ex SrvConfig
  | [] => Except.ok cfg
  | e :: rest =>
    match rsooStringValue e with
    | Except.error ex => Except.error ex
    | Except.ok str =>
      match parseRSOOEntry lookup str with
      | Except.error ex => Except.error ex
      | Except.ok code =>
        rsooParseItems lookup { cfg with rsoo := cfg.rsoo ++ [code] } rest

/-- RSOOListConfigParser::parse: iterates the configured list; any
failure is rethrown as a DhcpConfigError with the position of the
whole list value appended to the message. -/
def rsooListParse (lookup : String → Option Int) (cfg : SrvConfig) (value : Elem) :
    Except Ex SrvConfig :=
  match value with
  | Elem.vlist xs _ =>
    match rsooParseItems lookup cfg xs with
    | Except.ok c => Except.ok c
    | Except.error (Ex.isc m) =>
        Except.error (Ex.isc (m ++ " (" ++ value.getPos ++ ")"))
    | Except.error Ex.other => Except.error Ex.other
  | _ =>
    Except.error (Ex.isc ("listValue() called on non-list Element" ++
      " (" ++ value.getPos ++ ")"))

/-- Dhcp6ConfigParser::parse: reads the two recognized global scalars
and stores them in the staging configuration. -/
def dhcp6GlobalParse (env : ParserEnv) (cfg : SrvConfig) (global : Elem) :
    Except Ex SrvConfig :=
  match env.getUint32 global "decline-probation-period" with
  | Except.error e => Except.error e
  | Except.ok p =>
    match env.getUint16 global "dhcp4o6-port" with
    | Except.error e => Except.error e
    | Except.ok port =>
      Except.ok { cfg with declinePeriod := p, dhcp4o6Port := port }

/-- Mutable state threaded through the dispatch loop: the staging
configuration being assembled and the subnet-id counter. -/
structure ParseSt where
  cfg : SrvConfig
  counter : Nat

/-- Applies a section-parser outcome producing a new staging config. -/
def liftCfg (st : ParseSt) : Except Ex SrvConfig → Except Ex Unit × ParseSt
  | Except.ok c => (Except.ok (), { st with cfg := c })
  | Except.error e => (Except.error e, st)

/-- Applies a section-parser outcome with no staging output. -/
def liftUnit (st : ParseSt) : Except Ex Unit → Except Ex Unit × ParseSt
  | Except.ok _ => (Except.ok (), st)
  | Except.error e => (Except.error e, st)

/-- Applies a subnet-parser outcome, which also advances the
subnet-id counter. -/
def liftCfgCnt (st : ParseSt) : Except Ex (SrvConfig × Nat) → Except Ex Unit × ParseSt
  | Except.ok p => (Except.ok (), { cfg := p.1, counter := p.2 })
  | Except.error e => (Except.error e, st)

/-- Attaches the emitted events to a step outcome. -/
def withEvs (p : Except Ex Unit × ParseSt) (evs : List Event) :
    Except Ex Unit × ParseSt × List Event :=
  (p.1, p.2, evs)

/-- The hooks-libraries section: parse the library list, then verify
that each library exists, reporting against the section's position. -/
def hooksSection (env : ParserEnv) (cfg : SrvConfig) (v : Elem) : Except Ex SrvConfig :=
  match env.hooksLibrariesList v with
  | Except.error e => Except.error e
  | Except.ok libs =>
    match env.verifyLibraries libs v.getPos with
    | Except.error e => Except.error e
    | Except.ok _ => Except.ok { cfg with hooksLibraries := libs }

/-- The dhcp-ddns section: parse the D2 client configuration and store
it in the staging configuration. -/
def d2Section (env : ParserEnv) (cfg : SrvConfig) (v : Elem) : Except Ex SrvConfig :=
  match env.d2ClientCfg v with
  | Except.error e => Except.error e
  | Except.ok d => Except.ok { cfg with d2Config := some d }

/-- The client-classes section: parse the dictionary and store it. -/
def clientClassSection (env : ParserEnv) (cfg : SrvConfig) (v : Elem) :
    Except Ex SrvConfig :=
  match env.clientClassDefList v with
  | Except.error e => Except.error e
  | Except.ok d => Except.ok { cfg with clientClasses := some d }

/-- The interfaces-config section: in check-only mode the re-detect
flag is forced to false before handing the tree to the parser. -/
def ifacesSection (env : ParserEnv) (ck : Bool) (cfg : SrvConfig) (v : Elem) :
    Except Ex SrvConfig :=
  env.ifacesCfg cfg (if ck then mapSet v "re-detect" (Elem.vbool false "") else v)

/-- Timer-like global scalars that the dispatch loop skips: their
values were already derived down to subnets or are handled by the
global parser afterwards. -/
def timerKeys : List String :=
  ["renew-timer", "rebind-timer", "preferred-lifetime", "valid-lifetime",
   "decline-probation-period", "dhcp4o6-port"]

/-- Every top-level key the dispatch loop recognizes (a mapped section
parser, the option-def pre-pass or a recognized global scalar). -/
def knownKeys : List String :=
  ["option-def", "option-data", "mac-sources", "control-socket",
   "host-reservation-identifiers", "server-id", "interfaces-config",
   "expired-leases-processing", "hooks-libraries", "dhcp-ddns",
   "client-classes", "lease-database", "hosts-database", "subnet6",
   "relay-supplied-options"] ++ timerKeys

/-- The work of one dispatch-loop iteration of configureDhcp6Server
over a top-level (key, value) pair, following the source's chain of
independent ifs.  Handled keys run their section parser; an unhandled
key throws a DhcpConfigError naming the key and its position. -/
def entryStep (env : ParserEnv) (ck : Bool) (st : ParseSt) (k : String) (v : Elem) :
    Except Ex Unit × ParseSt :=
  if k = "option-def" then (Except.ok (), st)
  else if k = "option-data" then liftCfg st (env.optionDataList st.cfg v)
  else if k = "mac-sources" then liftCfg st (env.macSourcesList st.cfg v)
  else if k = "control-socket" then liftCfg st (env.controlSocketCfg st.cfg v)
  else if k = "host-reservation-identifiers" then liftUnit st (env.hostReservationIds v)
  else if k = "server-id" then liftCfg st (env.duidCfg st.cfg v)
  else if k = "interfaces-config" then liftCfg st (ifacesSection env ck st.cfg v)
  else if k = "expired-leases-processing" then liftUnit st (env.expirationCfg v)
  else if k = "hooks-libraries" then liftCfg st (hooksSection env st.cfg v)
  else if k = "dhcp-ddns" then liftCfg st (d2Section env st.cfg v)
  else if k = "client-classes" then liftCfg st (clientClassSection env st.cfg v)
  else if k = "lease-database" then liftCfg st (env.dbAccessLeaseCfg st.cfg v)
  else if k = "hosts-database" then liftCfg st (env.dbAccessHostsCfg st.cfg v)
  else if k = "subnet6" then liftCfgCnt st (env.subnets6List st.cfg st.counter v)
  else if k ∈ timerKeys then (Except.ok (), st)
  else if k = "relay-supplied-options" then
    liftCfg st (rsooListParse env.stdOptionDef st.cfg v)
  else
    (Except.error (Ex.isc ("unsupported global configuration parameter: " ++ k ++
       " (" ++ v.getPos ++ ")")), st)

/-- The keys of the dispatch loop that run a section parser (and so
are logged as a section parse); option-def is handled by the pre-pass
and the timer-like scalars are skipped. -/
def dispatchSectionKeys : List String :=
  ["option-data", "mac-sources", "control-socket", "host-reservation-identifiers",
   "server-id", "interfaces-config", "expired-leases-processing", "hooks-libraries",
   "dhcp-ddns", "client-classes", "lease-database", "hosts-database", "subnet6",
   "relay-supplied-options"]

/-- The section-parser invocation recorded by one dispatch-loop
iteration: exactly the handled non-skip keys run a parser. -/
def entryEvents (k : String) : List Event :=
  if k = "option-def" then []
  else if k ∈ dispatchSectionKeys then [Event.sectionParse k]
  else []

/-- One full iteration of the dispatch loop: the step's outcome
together with the recorded section-parser invocation. -/
def processEntry (env : ParserEnv) (ck : Bool) (st : ParseSt) (k : String) (v : Elem) :
    Except Ex Unit × ParseSt × List Event :=
  ((entryStep env ck st k v).1, (entryStep env ck st k v).2, entryEvents k)

/-- The dispatch loop: processes the map entries in order, stopping at
the first failure, accumulating events. -/
def processEntries (env : ParserEnv) (ck : Bool) :
    List (String × Elem) → ParseSt → Except Ex Unit × ParseSt × List Event
  | [], st => (Except.ok (), st, [])
  | (k, v) :: rest, st =>
    let R := processEntry env ck st k v
    match R.1 with
    | Except.error e => (Except.error e, R.2.1, R.2.2)
    | Except.ok _ =>
      let R2 := processEntries env ck rest R.2.1
      (R2.1, R2.2.1, R.2.2 ++ R2.2.2)

/-- The option-definition pre-pass: option-def is parsed before the
dispatch loop runs, since option-data resolves names against it. -/
def optionDefPrePass (env : ParserEnv) (t2 : Elem) (st : ParseSt) :
    Except Ex Unit × ParseSt × List Event :=
  match Elem.get t2 "option-def" with
  | none => (Except.ok (), st, [])
  | some od =>
    withEvs (liftCfg st (env.optionDefList st.cfg od)) [Event.sectionParse "option-def"]

/-- The parse phase of configureDhcp6Server: default filling,
parameter derivation, the option-definition pre-pass, the dispatch
loop and the final global-scalar parse, starting from a fresh staging
configuration and a reset subnet-id counter. -/
def parsePhase (env : ParserEnv) (ck : Bool) (t : Elem) :
    Except Ex Unit × ParseSt × List Event :=
  let st0 : ParseSt := { cfg := freshSrvConfig, counter := 1 }
  match env.setAllDefaults t with
  | Except.error e => (Except.error e, st0, [])
  | Except.ok t1 =>
    match env.deriveParameters t1 with
    | Except.error e => (Except.error e, st0, [])
    | Except.ok t2 =>
      match mapValue t2 with
      | Except.error e => (Except.error e, st0, [])
      | Except.ok entries =>
        let PP := optionDefPrePass env t2 st0
        match PP.1 with
        | Except.error e => (Except.error e, PP.2.1, PP.2.2)
        | Except.ok _ =>
          let L := processEntries env ck entries PP.2.1
          match L.1 with
          | Except.error e => (Except.error e, L.2.1, PP.2.2 ++ L.2.2)
          | Except.ok _ =>
            match dhcp6GlobalParse env L.2.1.cfg t2 with
            | Except.ok c =>
                (Except.ok (), { L.2.1 with cfg := c },
                 PP.2.2 ++ L.2.2 ++ [Event.globalParse])
            | Except.error e =>
                (Except.error e, L.2.1, PP.2.2 ++ L.2.2 ++ [Event.globalParse])

/-- Closes the current command socket and opens one for the staged
descriptor; an opening failure propagates after the close. -/
def openAfterClose (env : ParserEnv) (d : Elem) :
    Except Ex Unit × Option Elem × List Event :=
  match env.openSocket d with
  | Except.ok _ => (Except.ok (), some d, [Event.closeSocket, Event.openSocket d])
  | Except.error e => (Except.error e, none, [Event.closeSocket, Event.openSocket d])

/-- configureCommandChannel: the current socket is closed (and a new
one opened when a staged descriptor exists) unless both descriptors
are present and structurally equal. -/
def configureCommandChannel (env : ParserEnv) (staged cur active : Option Elem) :
    Except Ex Unit × Option Elem × List Event :=
  match staged, cur with
  | some a, some b =>
    if elemEq a b then (Except.ok (), active, [])
    else openAfterClose env a
  | some a, none => openAfterClose env a
  | none, _ => (Except.ok (), none, [Event.closeSocket])

/-- The commit pipeline of configureDhcp6Server: command-channel
reconciliation, then the unconditional D2 client activation, then
hook-library loading; the first failure halts the pipeline.  Returns
the outcome, the resulting active socket, the resulting active D2
configuration and the emitted events. -/
def commitPhase (env : ParserEnv) (staging current : SrvConfig)
    (active d2act : Option Elem) :
    Except Ex Unit × Option Elem × Option Elem × List Event :=
  let K := configureCommandChannel env staging.controlSocket current.controlSocket active
  match K.1 with
  | Except.error e => (Except.error e, K.2.1, d2act, K.2.2)
  | Except.ok _ =>
    match env.loadLibraries staging.hooksLibraries with
    | Except.ok _ =>
        (Except.ok (), K.2.1, staging.d2Config,
         K.2.2 ++ [Event.setD2, Event.loadHooks staging.hooksLibraries])
    | Except.error e =>
        (Except.error e, K.2.1, staging.d2Config,
         K.2.2 ++ [Event.setD2, Event.loadHooks staging.hooksLibraries])

/-- Conversion of a parse-phase exception to an answer (the two catch
clauses around the parsing block). -/
def parseErrAnswer : Ex → Answer
  | Ex.isc m => { status := 1, text := m }
  | Ex.other => { status := 1, text := "undefined configuration processing error" }

/-- Conversion of a commit-phase exception to an answer (the two
catch clauses around the commit block). -/
def commitErrAnswer : Ex → Answer
  | Ex.isc m => { status := 2, text := m }
  | Ex.other => { status := 2, text := "undefined configuration parsing error" }

/-- The fixed answer text of a sane check-only run. -/
def checkOnlySaneText : String :=
  "Configuration seems sane. Control-socket, hook-libraries, and D2 " ++
  "configuration were sanity checked, but not applied."

/-- Restores the runtime option definitions from the committed set
(LibDHCP::revertRuntimeOptionDefs on the rollback path). -/
def rollbackState (s : ServerState) : ServerState :=
  { s with lib := { s.lib with runtime := s.lib.committed } }

/-- configureDhcp6Server: the configuration entry point.  A null tree
fails immediately; otherwise the subnet-id counter is reset, timers
are unregistered (when not check-only), runtime option definitions
are reverted and replaced by an empty container, the parse phase
assembles a fresh staging configuration (Modelled from the spec:
CfgMgr::getStagingCfg is outside this translation unit; per the spec
lifecycle a staging configuration is created fresh at the start of
each attempt), and then either the commit pipeline runs or everything
is rolled back.  Returns the answer, the new server state and the
event trace. -/
def configureDhcp6Server (env : ParserEnv) (config_set : Option Elem)
    (check_only : Bool) (s : ServerState) : Answer × ServerState × List Event :=
  match config_set with
  | none => ({ status := 1, text := "Can\x27t parse NULL config" }, s, [])
  | some tree =>
    let preEvs : List Event :=
      Event.resetIds :: (if check_only then [] else [Event.unregisterTimers]) ++
        [Event.revertDefs, Event.setDefs]
    let P := parsePhase env check_only tree
    let s2 : ServerState :=
      { s with subnetCounter := P.2.1.counter,
               lib := { s.lib with runtime := emptyDefs },
               cfgMgr := { s.cfgMgr with staging := P.2.1.cfg } }
    match P.1, check_only with
    | Except.error e, _ =>
        (parseErrAnswer e, rollbackState s2, preEvs ++ P.2.2 ++ [Event.revertDefs])
    | Except.ok _, true =>
        ({ status := 0, text := checkOnlySaneText }, rollbackState s2,
         preEvs ++ P.2.2 ++ [Event.revertDefs])
    | Except.ok _, false =>
        let C := commitPhase env P.2.1.cfg s.cfgMgr.current s.activeSocket s.d2Active
        let s3 : ServerState := { s2 with activeSocket := C.2.1, d2Active := C.2.2.1 }
        match C.1 with
        | Except.ok _ =>
            ({ status := 0, text := "Configuration successful." }, s3,
             preEvs ++ P.2.2 ++ C.2.2.2)
        | Except.error e =>
            (commitErrAnswer e, rollbackState s3,
             preEvs ++ P.2.2 ++ C.2.2.2 ++ [Event.revertDefs])

/-- A benign collaborator environment for concrete evaluations: every
external section parser succeeds without touching the staging
configuration. -/
def envW : ParserEnv :=
  { setAllDefaults := fun t => Except.ok t,
    deriveParameters := fun t => Except.ok t,
    optionDefList := fun c _ => Except.ok c,
    optionDataList := fun c _ => Except.ok c,
    macSourcesList := fun c _ => Except.ok c,
    controlSocketCfg := fun c _ => Except.ok c,
    hostReservationIds := fun _ => Except.ok (),
    duidCfg := fun c _ => Except.ok c,
    ifacesCfg := fun c _ => Except.ok c,
    expirationCfg := fun _ => Except.ok (),
    hooksLibrariesList := fun _ => Except.ok [],
    verifyLibraries := fun _ _ => Except.ok (),
    d2ClientCfg := fun e => Except.ok e,
    clientClassDefList := fun e => Except.ok e,
    dbAccessLeaseCfg := fun c _ => Except.ok c,
    dbAccessHostsCfg := fun c _ => Except.ok c,
    subnets6List := fun c n _ => Except.ok (c, n),
    stdOptionDef := fun _ => none,
    getUint32 := fun _ _ => Except.ok 0,
    getUint16 := fun _ _ => Except.ok 0,
    openSocket := fun _ => Except.ok (),
    loadLibraries := fun _ => Except.ok () }

/-- A steady-state server for concrete evaluations. -/
def stateW : ServerState :=
  { lib := { runtime := emptyDefs, committed := emptyDefs },
    cfgMgr := { staging := freshSrvConfig, current := freshSrvConfig },
    subnetCounter := 7,
    activeSocket := none,
    d2Active := none }

/-- A configuration tree whose only top-level key is unrecognized. -/
def treeUnknown : Elem :=
  Elem.vmap [("not-a-real-section", Elem.vint 1 "<string>:2:3")] "<string>:1:1"

/-- A configuration tree containing option-def and option-data. -/
def treeDef : Elem :=
  Elem.vmap [("option-data", Elem.vlist [] "<string>:3:1"),
             ("option-def", Elem.vlist [] "<string>:2:1")] "<string>:1:1"

/-- Both parse-phase catch clauses produce a status-1 answer. -/
theorem parseErrAnswer_status (e : Ex) : (parseErrAnswer e).status = 1 := by
  cases e <;> rfl

/-- Both commit-phase catch clauses produce a status-2 answer. -/
theorem commitErrAnswer_status (e : Ex) : (commitErrAnswer e).status = 2 := by
  cases e <;> rfl

/-- The staging configuration left behind by a run is exactly the one
assembled by the parse phase, whatever the outcome. -/
theorem staging_from_parse (env : ParserEnv) (tree : Elem) (ck : Bool) (s : ServerState) :
    (configureDhcp6Server env (some tree) ck s).2.1.cfgMgr.staging =
      (parsePhase env ck tree).2.1.cfg := by
  simp only [configureDhcp6Server]
  split
  · rfl
  · rfl
  · split <;> rfl

/-- configureDhcp6Server never replaces the current configuration:
promotion of staging to current is the caller's task. -/
theorem current_unchanged (env : ParserEnv) (cfg : Option Elem) (ck : Bool) (s : ServerState) :
    (configureDhcp6Server env cfg ck s).2.1.cfgMgr.current = s.cfgMgr.current := by
  cases cfg with
  | none => rfl
  | some tree =>
    simp only [configureDhcp6Server]
    split
    · rfl
    · rfl
    · split <;> rfl

/-- The committed runtime option definitions are never modified by a
configuration run. -/
theorem committed_unchanged (env : ParserEnv) (cfg : Option Elem) (ck : Bool) (s : ServerState) :
    (configureDhcp6Server env cfg ck s).2.1.lib.committed = s.lib.committed := by
  cases cfg with
  | none => rfl
  | some tree =>
    simp only [configureDhcp6Server]
    split
    · rfl
    · rfl
    · split <;> rfl

/-- The outcome of the command-channel reconciliation does not depend
on which socket happens to be open. -/
theorem ccc_res_indep (env : ParserEnv) (st cu : Option Elem) (a a' : Option Elem) :
    (configureCommandChannel env st cu a).1 = (configureCommandChannel env st cu a').1 := by
  cases st <;> cases cu <;> (simp only [configureCommandChannel]; try rfl)
  split <;> rfl

/-- The outcome of the commit pipeline does not depend on the open
socket or the active D2 configuration. -/
theorem commit_res_indep (env : ParserEnv) (stg cur : SrvConfig)
    (a a' d d' : Option Elem) :
    (commitPhase env stg cur a d).1 = (commitPhase env stg cur a' d').1 := by
  simp only [commitPhase]
  rw [ccc_res_indep env stg.controlSocket cur.controlSocket a a']
  cases (configureCommandChannel env stg.controlSocket cur.controlSocket a').1
  · rfl
  · cases env.loadLibraries stg.hooksLibraries <;> rfl

/-- The answer of a run depends on the prior server state only
through the current configuration (the commit pipeline compares the
staged control socket against the current one). -/
theorem answer_state_indep (env : ParserEnv) (t : Elem) (ck : Bool) (s s' : ServerState)
    (hc : s'.cfgMgr.current = s.cfgMgr.current) :
    (configureDhcp6Server env (some t) ck s').1 = (configureDhcp6Server env (some t) ck s).1 := by
  rcases hp : (parsePhase env ck t).1 with e | u
  · cases ck <;> simp only [configureDhcp6Server, hp]
  · cases ck
    · simp only [configureDhcp6Server, hp]
      rw [hc, commit_res_indep env (parsePhase env false t).2.1.cfg s.cfgMgr.current
            s'.activeSocket s.activeSocket s'.d2Active s.d2Active]
      cases (commitPhase env (parsePhase env false t).2.1.cfg s.cfgMgr.current
          s.activeSocket s.d2Active).1 <;> rfl
    · simp only [configureDhcp6Server, hp]

/-- C4: a null configuration tree fails immediately with the fixed
diagnostic and status 1, before the staging configuration, the
subnet-id counter or the runtime option definitions are touched: the
server state is returned unchanged and no side-effecting call runs. -/
theorem c4_null_config_immediate_failure (env : ParserEnv) (ck : Bool) (s : ServerState) :
    configureDhcp6Server env none ck s =
      ({ status := 1, text := "Can\x27t parse NULL config" }, s, []) := rfl

/-- C10: in the relay-supplied-options parser, a numeric entry is
accepted as an option code exactly when its value lies in 1..65535; a
negative value or a value above 65535 is rejected with an error, and
a numeric value of zero is never accepted directly: it falls through
to the standard-space name lookup and is rejected when that lookup
fails. -/
theorem c10_rsoo_numeric_range (lookup : String → Option Int) (s : String) (n : Int)
    (h : parseInt64 s = some n) :
    (1 ≤ n ∧ n ≤ 65535 → parseRSOOEntry lookup s = Except.ok n) ∧
    (n < 0 → ∃ m, parseRSOOEntry lookup s = Except.error (Ex.isc m)) ∧
    (65535 < n → ∃ m, parseRSOOEntry lookup s = Except.error (Ex.isc m)) ∧
    (n = 0 → parseRSOOEntry lookup s = rsooNameLookup lookup s) ∧
    (n = 0 → lookup s = none → ∃ m, parseRSOOEntry lookup s = Except.error (Ex.isc m)) := by
  have hdef : parseRSOOEntry lookup s =
      (if n < 0 then
        Except.error (Ex.isc ("invalid option code value specified \x27" ++ s ++
          "\x27, the option code must be a non-negative value"))
      else if 65535 < n then
        Except.error (Ex.isc ("invalid option code value specified \x27" ++ s ++
          "\x27, the option code must not be greater than \x2765535\x27"))
      else if n = 0 then rsooNameLookup lookup s
      else Except.ok n) := by
    unfold parseRSOOEntry
    rw [h]
  refine ⟨?_, ?_, ?_, ?_, ?_⟩
  · rintro ⟨h1, h2⟩
    rw [hdef, if_neg (by omega), if_neg (by omega), if_neg (by omega)]
  · intro h1
    rw [hdef, if_pos h1]
    exact ⟨_, rfl⟩
  · intro h1
    rw [hdef, if_neg (by omega), if_pos h1]
    exact ⟨_, rfl⟩
  · intro h1
    rw [hdef, if_neg (by omega), if_neg (by omega), if_pos h1]
  · intro h1 h2
    rw [hdef, if_neg (by omega), if_neg (by omega), if_pos h1]
    unfold rsooNameLookup
    rw [h2]
    exact ⟨_, rfl⟩

/-- Concrete instantiation of c10_rsoo_numeric_range: the entry "0"
parses numerically to zero and is routed to the name lookup. -/
theorem c10_witness :
    parseInt64 "0" = some 0 ∧
    parseRSOOEntry (fun _ => (none : Option Int)) "0" =
      rsooNameLookup (fun _ => (none : Option Int)) "0" :=
  ⟨by decide,
   (c10_rsoo_numeric_range (fun _ => (none : Option Int)) "0" 0 (by decide)).2.2.2.1 rfl⟩

/-- One dispatch-loop step emits no event, or exactly one
sectionParse event for its own key, which is never "option-def". -/
theorem processEntry_events_shape (env : ParserEnv) (ck : Bool) (st : ParseSt)
    (k : String) (v : Elem) :
    (processEntry env ck st k v).2.2 = [] ∨
    (k ≠ "option-def" ∧ (processEntry env ck st k v).2.2 = [Event.sectionParse k]) := by
  show entryEvents k = [] ∨ (k ≠ "option-def" ∧ entryEvents k = [Event.sectionParse k])
  unfold entryEvents
  split_ifs with h1 h2
  · left; rfl
  · right; exact ⟨h1, rfl⟩
  · left; rfl

/-- Every event emitted by the dispatch loop is a sectionParse event
for a key other than "option-def". -/
theorem processEntries_events_prop (env : ParserEnv) (ck : Bool) :
    ∀ (entries : List (String × Elem)) (st : ParseSt),
      ∀ e ∈ (processEntries env ck entries st).2.2,
        ∃ k, k ≠ "option-def" ∧ e = Event.sectionParse k := by
  intro entries
  induction entries with
  | nil => intro st e he; simp [processEntries] at he
  | cons p rest ih =>
    intro st e he
    obtain ⟨k, v⟩ := p
    rcases hs : (processEntry env ck st k v).1 with er | u <;>
      simp only [processEntries, hs] at he
    · rcases processEntry_events_shape env ck st k v with h | ⟨hk, h⟩ <;> rw [h] at he
      · simp at he
      · rw [List.mem_singleton] at he
        exact ⟨k, hk, he⟩
    · rw [List.mem_append] at he
      rcases he with he1 | he2
      · rcases processEntry_events_shape env ck st k v with h | ⟨hk, h⟩ <;> rw [h] at he1
        · simp at he1
        · rw [List.mem_singleton] at he1
          exact ⟨k, hk, he1⟩
      · exact ih _ e he2

/-- The option-definition pre-pass emits at most one event, the
option-def sectionParse event. -/
theorem prePass_events (env : ParserEnv) (t2 : Elem) (st : ParseSt) :
    (optionDefPrePass env t2 st).2.2 = [] ∨
    (optionDefPrePass env t2 st).2.2 = [Event.sectionParse "option-def"] := by
  unfold optionDefPrePass
  cases Elem.get t2 "option-def" <;> simp [withEvs]

/-- The parse-phase event list is a possibly present option-def event
followed only by other-section parse events and the global parse. -/
theorem parsePhase_evs_decomp (env : ParserEnv) (ck : Bool) (t : Elem) :
    ∃ rest : List Event,
      (∀ e ∈ rest, (∃ k, k ≠ "option-def" ∧ e = Event.sectionParse k) ∨
        e = Event.globalParse) ∧
      ((parsePhase env ck t).2.2 = rest ∨
       (parsePhase env ck t).2.2 = Event.sectionParse "option-def" :: rest) := by
  rcases hd : env.setAllDefaults t with e1 | t1
  · exact ⟨[], by simp, Or.inl (by simp [parsePhase, hd])⟩
  rcases hv : env.deriveParameters t1 with e2 | t2
  · exact ⟨[], by simp, Or.inl (by simp [parsePhase, hd, hv])⟩
  rcases hm : mapValue t2 with e3 | entries
  · exact ⟨[], by simp, Or.inl (by simp [parsePhase, hd, hv, hm])⟩
  rcases hpp : (optionDefPrePass env t2 { cfg := freshSrvConfig, counter := 1 }).1 with e4 | u
  · rcases prePass_events env t2 { cfg := freshSrvConfig, counter := 1 } with h | h
    · exact ⟨[], by simp, Or.inl (by simp [parsePhase, hd, hv, hm, hpp, h])⟩
    · exact ⟨[], by simp, Or.inr (by simp [parsePhase, hd, hv, hm, hpp, h])⟩
  rcases hl : (processEntries env ck entries
      (optionDefPrePass env t2 { cfg := freshSrvConfig, counter := 1 }).2.1).1 with e5 | u2
  · refine ⟨(processEntries env ck entries
        (optionDefPrePass env t2 { cfg := freshSrvConfig, counter := 1 }).2.1).2.2,
      fun e he => Or.inl (processEntries_events_prop env ck entries _ e he), ?_⟩
    rcases prePass_events env t2 { cfg := freshSrvConfig, counter := 1 } with h | h
    · exact Or.inl (by simp [parsePhase, hd, hv, hm, hpp, hl, h])
    · exact Or.inr (by simp [parsePhase, hd, hv, hm, hpp, hl, h])
  refine ⟨(processEntries env ck entries
      (optionDefPrePass env t2 { cfg := freshSrvConfig, counter := 1 }).2.1).2.2 ++
      [Event.globalParse], ?_, ?_⟩
  · intro e he
    rcases List.mem_append.mp he with h1 | h2
    · exact Or.inl (processEntries_events_prop env ck entries _ e h1)
    · rw [List.mem_singleton] at h2
      exact Or.inr h2
  · rcases hg : dhcp6GlobalParse env (processEntries env ck entries
        (optionDefPrePass env t2 { cfg := freshSrvConfig, counter := 1 }).2.1).2.1.cfg t2
      with e6 | c <;>
      (rcases prePass_events env t2 { cfg := freshSrvConfig, counter := 1 } with h | h)
    · exact Or.inl (by simp [parsePhase, hd, hv, hm, hpp, hl, hg, h])
    · exact Or.inr (by simp [parsePhase, hd, hv, hm, hpp, hl, hg, h])
    · exact Or.inl (by simp [parsePhase, hd, hv, hm, hpp, hl, hg, h])
    · exact Or.inr (by simp [parsePhase, hd, hv, hm, hpp, hl, hg, h])

/-- Every event emitted by the parse phase is a sectionParse event or
the global-scalar parse: the commit pipeline never logs there. -/
theorem parsePhase_events_kinds (env : ParserEnv) (ck : Bool) (t : Elem) :
    ∀ e ∈ (parsePhase env ck t).2.2,
      (∃ k, e = Event.sectionParse k) ∨ e = Event.globalParse := by
  intro e he
  obtain ⟨rest, hprop, hcase⟩ := parsePhase_evs_decomp env ck t
  rcases hcase with hc | hc <;> rw [hc] at he
  · rcases hprop e he with ⟨k, _, hk⟩ | hk
    · exact Or.inl ⟨k, hk⟩
    · exact Or.inr hk
  · rcases List.mem_cons.mp he with he1 | he2
    · exact Or.inl ⟨"option-def", he1⟩
    · rcases hprop e he2 with ⟨k, _, hk⟩ | hk
      · exact Or.inl ⟨k, hk⟩
      · exact Or.inr hk

/-- C8: the option-definition section is parsed before any other
section parser runs: in the parse-phase trace, an option-def
sectionParse event can only sit at position zero, whatever the key
order of the input map — in particular the option-data parser never
runs before option-definition parsing has completed. -/
theorem c8_option_def_first (env : ParserEnv) (ck : Bool) (t : Elem) (n : Nat)
    (h : ((parsePhase env ck t).2.2).get? n = some (Event.sectionParse "option-def")) :
    n = 0 := by
  obtain ⟨rest, hprop, hcase⟩ := parsePhase_evs_decomp env ck t
  have hnotin : Event.sectionParse "option-def" ∉ rest := by
    intro hm
    rcases hprop _ hm with ⟨k, hk, he⟩ | he
    · injection he with hkk
      exact hk hkk.symm
    · cases he
  rcases hcase with hc | hc
  · rw [hc] at h
    exact absurd (List.get?_mem h) hnotin
  · cases n with
    | zero => rfl
    | succ m =>
      rw [hc] at h
      simp only [List.get?_cons_succ] at h
      exact absurd (List.get?_mem h) hnotin

/-- Instance of c8_option_def_first on a concrete tree whose map
lists option-data before option-def. -/
theorem c8_witness :
    ((parsePhase envW false treeDef).2.2).get? 0 =
      some (Event.sectionParse "option-def") ∧ (0 : Nat) = 0 :=
  ⟨rfl, c8_option_def_first envW false treeDef 0 rfl⟩

/-- Classification helper: none of the non-commit events is one of
the commit-pipeline calls. -/
theorem not_commit_event (e : Event)
    (h : (∃ k, e = Event.sectionParse k) ∨ e = Event.globalParse ∨ e = Event.resetIds ∨
         e = Event.unregisterTimers ∨ e = Event.revertDefs ∨ e = Event.setDefs) :
    e ≠ Event.closeSocket ∧ (∀ d, e ≠ Event.openSocket d) ∧ e ≠ Event.setD2 ∧
      (∀ ls, e ≠ Event.loadHooks ls) := by
  rcases h with ⟨k, rfl⟩ | rfl | rfl | rfl | rfl | rfl <;>
    exact ⟨by simp, fun d => by simp, by simp, fun ls => by simp⟩

/-- C2: with checkOnly set, a run never changes the effective
configuration: the current configuration, the command socket and the
active D2 configuration are untouched, no commit-pipeline call is
logged, the runtime option definitions are rolled back, and the
answer is the fixed status-0 validation message exactly when the
parse phase itself succeeded. -/
theorem c2_check_only_validation (env : ParserEnv) (t : Elem) (s : ServerState) :
    (configureDhcp6Server env (some t) true s).2.1.cfgMgr.current = s.cfgMgr.current ∧
    (configureDhcp6Server env (some t) true s).2.1.activeSocket = s.activeSocket ∧
    (configureDhcp6Server env (some t) true s).2.1.d2Active = s.d2Active ∧
    (configureDhcp6Server env (some t) true s).2.1.lib.runtime = s.lib.committed ∧
    (∀ e ∈ (configureDhcp6Server env (some t) true s).2.2,
       e ≠ Event.closeSocket ∧ (∀ d, e ≠ Event.openSocket d) ∧
       e ≠ Event.setD2 ∧ (∀ ls, e ≠ Event.loadHooks ls)) ∧
    ((configureDhcp6Server env (some t) true s).1.status = 0 ↔
       (parsePhase env true t).1 = Except.ok ()) ∧
    ((configureDhcp6Server env (some t) true s).1.status = 0 →
       (configureDhcp6Server env (some t) true s).1.text = checkOnlySaneText) := by
  rcases hp : (parsePhase env true t).1 with er | u
  · refine ⟨by simp [configureDhcp6Server, hp, rollbackState],
      by simp [configureDhcp6Server, hp, rollbackState],
      by simp [configureDhcp6Server, hp, rollbackState],
      by simp [configureDhcp6Server, hp, rollbackState], ?_, ?_, ?_⟩
    · intro e he
      have hkinds := parsePhase_events_kinds env true t e
      apply not_commit_event e
      simp [configureDhcp6Server, hp] at he
      tauto
    · constructor
      · intro hst
        have := parseErrAnswer_status er
        simp [configureDhcp6Server, hp] at hst
        omega
      · intro hok
        exact Except.noConfusion hok
    · intro hst
      have := parseErrAnswer_status er
      simp [configureDhcp6Server, hp] at hst
      omega
  · refine ⟨by simp [configureDhcp6Server, hp, rollbackState],
      by simp [configureDhcp6Server, hp, rollbackState],
      by simp [configureDhcp6Server, hp, rollbackState],
      by simp [configureDhcp6Server, hp, rollbackState], ?_, ?_, ?_⟩
    · intro e he
      have hkinds := parsePhase_events_kinds env true t e
      apply not_commit_event e
      simp [configureDhcp6Server, hp] at he
      tauto
    · simp [configureDhcp6Server, hp]
    · intro _
      simp [configureDhcp6Server, hp]

/-- C7: the staging configuration is assembled afresh on every
attempt: whatever a previous call (successful or failed, on any
input) wrote into the server state, a subsequent call assembles
exactly the staging configuration it would have assembled without the
previous call. -/
theorem c7_staging_never_reused (env : ParserEnv) (cfg1 : Option Elem) (ck1 : Bool)
    (t : Elem) (ck : Bool) (s : ServerState) :
    (configureDhcp6Server env (some t) ck
        (configureDhcp6Server env cfg1 ck1 s).2.1).2.1.cfgMgr.staging =
      (configureDhcp6Server env (some t) ck s).2.1.cfgMgr.staging := by
  rw [staging_from_parse, staging_from_parse]

/-- C9: applying the same tree twice in succession is idempotent: the
second call returns the same answer and assembles a staging
configuration with identical content, because the subnet-id counter
is reset and the staging configuration is fresh at the start of every
call. -/
theorem c9_idempotent (env : ParserEnv) (t : Elem) (ck : Bool) (s : ServerState) :
    (configureDhcp6Server env (some t) ck
        (configureDhcp6Server env (some t) ck s).2.1).1 =
      (configureDhcp6Server env (some t) ck s).1 ∧
    (configureDhcp6Server env (some t) ck
        (configureDhcp6Server env (some t) ck s).2.1).2.1.cfgMgr.staging =
      (configureDhcp6Server env (some t) ck s).2.1.cfgMgr.staging := by
  constructor
  · exact answer_state_indep env t ck s _ (current_unchanged env (some t) ck s)
  · rw [staging_from_parse, staging_from_parse]

/-- C1: assuming the runtime option definitions are in their steady
state (live container equal to the committed one, as between calls),
every non-committing outcome — parse failure, commit failure or a
check-only run — leaves the runtime option definitions equal to their
pre-call state, and on a parse failure the current configuration
after the call is the very object it was before. -/
theorem c1_rollback_invariant (env : ParserEnv) (cfg : Option Elem) (ck : Bool)
    (s : ServerState) (h : s.lib.runtime = s.lib.committed) :
    ((ck = true ∨ (configureDhcp6Server env cfg ck s).1.status ≠ 0) →
      (configureDhcp6Server env cfg ck s).2.1.lib.runtime = s.lib.runtime) ∧
    ((configureDhcp6Server env cfg ck s).1.status = 1 →
      (configureDhcp6Server env cfg ck s).2.1.cfgMgr.current = s.cfgMgr.current) := by
  refine ⟨?_, fun _ => current_unchanged env cfg ck s⟩
  cases cfg with
  | none => intro _; rfl
  | some tree =>
    rcases hp : (parsePhase env ck tree).1 with e | u
    · cases ck <;> (simp only [configureDhcp6Server, hp]; intro _; exact h.symm)
    · cases ck
      · simp only [configureDhcp6Server, hp]
        cases hC : (commitPhase env (parsePhase env false tree).2.1.cfg s.cfgMgr.current
            s.activeSocket s.d2Active).1 with
        | error e => intro _; exact h.symm
        | ok v =>
          intro hnc
          rcases hnc with h1 | h2
          · exact absurd h1 (by simp)
          · exact absurd rfl h2
      · simp only [configureDhcp6Server, hp]
        intro _
        exact h.symm

/-- Instance of c1_rollback_invariant at a concrete steady state and
a check-only run over a concrete tree. -/
theorem c1_witness :
    stateW.lib.runtime = stateW.lib.committed ∧
    (((true = true ∨ (configureDhcp6Server envW (some treeDef) true stateW).1.status ≠ 0) →
       (configureDhcp6Server envW (some treeDef) true stateW).2.1.lib.runtime =
         stateW.lib.runtime) ∧
     ((configureDhcp6Server envW (some treeDef) true stateW).1.status = 1 →
       (configureDhcp6Server envW (some treeDef) true stateW).2.1.cfgMgr.current =
         stateW.cfgMgr.current)) :=
  ⟨rfl, c1_rollback_invariant envW (some treeDef) true stateW rfl⟩

/-- C6: the numeric status of the answer is always 0, 1 or 2; a parse
failure always reports status 1; a sane check-only run reports the
fixed status-0 validation answer; after a successful parse with
check-only off, a successful commit pipeline reports status 0 and a
failing commit pipeline (for example a hook-library load failure)
reports status 2 — so commit failures are distinguishable from parse
failures by status alone. -/
theorem c6_status_codes (env : ParserEnv) (t : Elem) (ck : Bool) (s : ServerState) :
    ((configureDhcp6Server env (some t) ck s).1.status = 0 ∨
     (configureDhcp6Server env (some t) ck s).1.status = 1 ∨
     (configureDhcp6Server env (some t) ck s).1.status = 2) ∧
    (∀ e, (parsePhase env ck t).1 = Except.error e →
       (configureDhcp6Server env (some t) ck s).1.status = 1) ∧
    ((parsePhase env ck t).1 = Except.ok () → ck = true →
       (configureDhcp6Server env (some t) ck s).1 =
         { status := 0, text := checkOnlySaneText }) ∧
    ((parsePhase env ck t).1 = Except.ok () → ck = false →
       (commitPhase env (parsePhase env ck t).2.1.cfg s.cfgMgr.current s.activeSocket
           s.d2Active).1 = Except.ok () →
       (configureDhcp6Server env (some t) ck s).1 =
         { status := 0, text := "Configuration successful." }) ∧
    (∀ e, (parsePhase env ck t).1 = Except.ok () → ck = false →
       (commitPhase env (parsePhase env ck t).2.1.cfg s.cfgMgr.current s.activeSocket
           s.d2Active).1 = Except.error e →
       (configureDhcp6Server env (some t) ck s).1.status = 2) := by
  refine ⟨?_, ?_, ?_, ?_, ?_⟩
  · rcases hp : (parsePhase env ck t).1 with e | u
    · cases ck <;> simp only [configureDhcp6Server, hp]
      · right; left; exact parseErrAnswer_status e
      · right; left; exact parseErrAnswer_status e
    · cases ck
      · simp only [configureDhcp6Server, hp]
        cases hC : (commitPhase env (parsePhase env false t).2.1.cfg s.cfgMgr.current
            s.activeSocket s.d2Active).1 with
        | error e => right; right; exact commitErrAnswer_status e
        | ok v => left; trivial
      · simp only [configureDhcp6Server, hp]
        left; trivial
  · intro e hp
    cases ck <;> simp only [configureDhcp6Server, hp] <;> exact parseErrAnswer_status e
  · intro hp hck
    subst hck
    simp only [configureDhcp6Server, hp]
  · intro hp hck hC
    subst hck
    simp only [configureDhcp6Server, hp, hC]
  · intro e hp hck hC
    subst hck
    simp only [configureDhcp6Server, hp, hC]
    exact commitErrAnswer_status e

/-- An unrecognized key makes the dispatch step throw the
DhcpConfigError naming the key and its position. -/
theorem entryStep_unknown (env : ParserEnv) (ck : Bool) (st : ParseSt) (k : String)
    (v : Elem) (h : k ∉ knownKeys) :
    entryStep env ck st k v =
      (Except.error (Ex.isc ("unsupported global configuration parameter: " ++ k ++
         " (" ++ v.getPos ++ ")")), st) := by
  simp only [knownKeys, timerKeys, List.mem_append, List.mem_cons, List.not_mem_nil,
    or_false, not_or] at h
  obtain ⟨⟨h1, h2, h3, h4, h5, h6, h7, h8, h9, h10, h11, h12, h13, h14, h15⟩,
    t1, t2, t3, t4, t5, t6⟩ := h
  unfold entryStep
  rw [if_neg h1, if_neg h2, if_neg h3, if_neg h4, if_neg h5, if_neg h6, if_neg h7,
    if_neg h8, if_neg h9, if_neg h10, if_neg h11, if_neg h12, if_neg h13, if_neg h14,
    if_neg (by simp [timerKeys, t1, t2, t3, t4, t5, t6]), if_neg h15]

/-- An unrecognized key makes the whole dispatch iteration fail with
the naming error, leaving the staging state alone and no parser run. -/
theorem processEntry_unknown (env : ParserEnv) (ck : Bool) (st : ParseSt) (k : String)
    (v : Elem) (h : k ∉ knownKeys) :
    processEntry env ck st k v =
      (Except.error (Ex.isc ("unsupported global configuration parameter: " ++ k ++
         " (" ++ v.getPos ++ ")")), st, []) := by
  have hod : ¬(k = "option-def") := fun hh => h (by simp [knownKeys, hh])
  have hds : ¬(k ∈ dispatchSectionKeys) := by
    intro hh
    apply h
    simp only [dispatchSectionKeys, List.mem_cons, List.not_mem_nil, or_false] at hh
    simp only [knownKeys, timerKeys, List.mem_append, List.mem_cons, List.not_mem_nil,
      or_false]
    tauto
  have hev : entryEvents k = [] := by
    unfold entryEvents
    rw [if_neg hod, if_neg hds]
  simp [processEntry, entryStep_unknown env ck st k v h, hev]

/-- A dispatch loop over a list containing an unrecognized key can
never succeed, wherever the key sits and whatever happens before. -/
theorem processEntries_unknown_not_ok (env : ParserEnv) (ck : Bool) (k : String)
    (v : Elem) (h : k ∉ knownKeys) :
    ∀ (pre post : List (String × Elem)) (st : ParseSt),
      ∃ e, (processEntries env ck (pre ++ (k, v) :: post) st).1 = Except.error e := by
  intro pre
  induction pre with
  | nil =>
    intro post st
    exact ⟨Ex.isc ("unsupported global configuration parameter: " ++ k ++
        " (" ++ v.getPos ++ ")"),
      by simp [processEntries, processEntry_unknown env ck st k v h]⟩
  | cons p rest ih =>
    intro post st
    obtain ⟨k1, v1⟩ := p
    rcases hs : (processEntry env ck st k1 v1).1 with er | u
    · exact ⟨er, by simp [processEntries, hs]⟩
    · obtain ⟨e, he⟩ := ih post (processEntry env ck st k1 v1).2.1
      exact ⟨e, by simp [processEntries, hs, he]⟩

/-- If the entries before an unrecognized key all parse, the dispatch
loop stops exactly at that key with the naming error. -/
theorem processEntries_reach_unknown (env : ParserEnv) (ck : Bool) (k : String)
    (v : Elem) (h : k ∉ knownKeys) :
    ∀ (pre : List (String × Elem)) (st : ParseSt),
      (processEntries env ck pre st).1 = Except.ok () →
      ∀ post, (processEntries env ck (pre ++ (k, v) :: post) st).1 =
        Except.error (Ex.isc ("unsupported global configuration parameter: " ++ k ++
          " (" ++ v.getPos ++ ")")) := by
  intro pre
  induction pre with
  | nil =>
    intro st _ post
    simp [processEntries, processEntry_unknown env ck st k v h]
  | cons p rest ih =>
    intro st hok post
    obtain ⟨k1, v1⟩ := p
    rcases hs : (processEntry env ck st k1 v1).1 with er | u
    · exfalso
      simp [processEntries, hs] at hok
    · have hok2 : (processEntries env ck rest (processEntry env ck st k1 v1).2.1).1 =
          Except.ok () := by
        simpa [processEntries, hs] using hok
      simp [processEntries, hs, ih _ hok2 post]

/-- A tree whose (defaulted, derived) map contains an unrecognized
top-level key can never pass the parse phase. -/
theorem parsePhase_unknown_fails (env : ParserEnv) (ck : Bool) (t t1 t2 : Elem)
    (k : String) (v : Elem) (pre post : List (String × Elem))
    (h1 : env.setAllDefaults t = Except.ok t1)
    (h2 : env.deriveParameters t1 = Except.ok t2)
    (h3 : mapValue t2 = Except.ok (pre ++ (k, v) :: post))
    (h4 : k ∉ knownKeys) :
    ∃ er, (parsePhase env ck t).1 = Except.error er := by
  rcases hpp : (optionDefPrePass env t2 { cfg := freshSrvConfig, counter := 1 }).1 with e4 | u
  · exact ⟨e4, by simp [parsePhase, h1, h2, h3, hpp]⟩
  · obtain ⟨e, he⟩ := processEntries_unknown_not_ok env ck k v h4 pre post
      (optionDefPrePass env t2 { cfg := freshSrvConfig, counter := 1 }).2.1
    exact ⟨e, by simp [parsePhase, h1, h2, h3, hpp, he]⟩

/-- C5: a configuration tree whose defaulted map contains a top-level
key that no section parser handles and that is not a recognized
global scalar always makes the call fail with status 1 leaving the
current configuration unchanged; and when the keys dispatched before
it all parse, the reported error is exactly the one naming the
offending key and its source position. -/
theorem c5_unknown_key (env : ParserEnv) (t : Elem) (ck : Bool) (s : ServerState)
    (t1 t2 : Elem) (k : String) (v : Elem) (pre post : List (String × Elem))
    (h1 : env.setAllDefaults t = Except.ok t1)
    (h2 : env.deriveParameters t1 = Except.ok t2)
    (h3 : mapValue t2 = Except.ok (pre ++ (k, v) :: post))
    (h4 : k ∉ knownKeys) :
    (configureDhcp6Server env (some t) ck s).1.status = 1 ∧
    (configureDhcp6Server env (some t) ck s).2.1.cfgMgr.current = s.cfgMgr.current ∧
    ((optionDefPrePass env t2 { cfg := freshSrvConfig, counter := 1 }).1 = Except.ok () →
     (processEntries env ck pre
        (optionDefPrePass env t2 { cfg := freshSrvConfig, counter := 1 }).2.1).1 =
       Except.ok () →
     (configureDhcp6Server env (some t) ck s).1 =
       { status := 1,
         text := "unsupported global configuration parameter: " ++ k ++
           " (" ++ v.getPos ++ ")" }) := by
  refine ⟨?_, current_unchanged env (some t) ck s, ?_⟩
  · obtain ⟨er, her⟩ := parsePhase_unknown_fails env ck t t1 t2 k v pre post h1 h2 h3 h4
    cases ck <;> simp [configureDhcp6Server, her, parseErrAnswer_status er]
  · intro hpp hpre
    have hmsg : (parsePhase env ck t).1 =
        Except.error (Ex.isc ("unsupported global configuration parameter: " ++ k ++
          " (" ++ v.getPos ++ ")")) := by
      simp [parsePhase, h1, h2, h3, hpp,
        processEntries_reach_unknown env ck k v h4 pre _ hpre post]
    cases ck <;> simp [configureDhcp6Server, hmsg, parseErrAnswer]

/-- Instance of c5_unknown_key: the single unknown key
"not-a-real-section" is reported with its position. -/
theorem c5_witness :
    "not-a-real-section" ∉ knownKeys ∧
    (configureDhcp6Server envW (some treeUnknown) false stateW).1 =
      { status := 1,
        text := "unsupported global configuration parameter: " ++ "not-a-real-section" ++
          " (" ++ (Elem.vint 1 "<string>:2:3").getPos ++ ")" } :=
  ⟨by decide,
   (c5_unknown_key envW treeUnknown false stateW treeUnknown treeUnknown
      "not-a-real-section" (Elem.vint 1 "<string>:2:3") [] [] rfl rfl rfl
      (by decide)).2.2 rfl rfl⟩

/-- C3 counterexample: with both the staged and the current
control-socket descriptor absent, the reconciliation step still
invokes the close operation, contradicting the claim that the active
socket is then neither closed nor reopened. -/
theorem c3_counterexample :
    Event.closeSocket ∈ (configureCommandChannel envW none none none).2.2 :=
  List.mem_singleton_self _

/-- C3 (amended): only when both descriptors are present and
structurally equal is the active socket left untouched (no close, no
open); in every other case — including both descriptors absent — the
close operation is invoked, and a new socket is opened exactly when
the staged descriptor is present (the opened socket becomes active on
success, and an opening failure propagates with no active socket). -/
theorem c3_channel_reconciliation (env : ParserEnv) (staged cur active : Option Elem) :
    (∀ a b, staged = some a → cur = some b → elemEq a b = true →
       configureCommandChannel env staged cur active = (Except.ok (), active, [])) ∧
    (staged = none →
       configureCommandChannel env staged cur active =
         (Except.ok (), none, [Event.closeSocket])) ∧
    (∀ a, staged = some a → cur = none →
       configureCommandChannel env staged cur active = openAfterClose env a) ∧
    (∀ a b, staged = some a → cur = some b → elemEq a b = false →
       configureCommandChannel env staged cur active = openAfterClose env a) ∧
    (∀ a, (openAfterClose env a).2.2 = [Event.closeSocket, Event.openSocket a] ∧
       (env.openSocket a = Except.ok () →
         openAfterClose env a =
           (Except.ok (), some a, [Event.closeSocket, Event.openSocket a])) ∧
       (∀ e, env.openSocket a = Except.error e →
         openAfterClose env a =
           (Except.error e, none, [Event.closeSocket, Event.openSocket a]))) := by
  refine ⟨?_, ?_, ?_, ?_, ?_⟩
  · rintro a b rfl rfl heq
    simp [configureCommandChannel, heq]
  · rintro rfl
    cases cur <;> rfl
  · rintro a rfl rfl
    rfl
  · rintro a b rfl rfl heq
    simp [configureCommandChannel, heq]
  · intro a
    refine ⟨?_, ?_, ?_⟩
    · rcases ho : env.openSocket a with e | u <;> simp [openAfterClose, ho]
    · intro ho
      simp [openAfterClose, ho]
    · intro e ho
      simp [openAfterClose, ho]

/-- Instance of c3_channel_reconciliation in the both-absent case:
the close call runs and no socket is opened. -/
theorem c3_witness :
    configureCommandChannel envW none none none =
      (Except.ok (), none, [Event.closeSocket]) :=
  (c3_channel_reconciliation envW none none none).2.1 rfl

/-- Instance of c6_status_codes at a concrete commit-failing
environment: a hook-library load failure yields status 2. -/
theorem c6_witness :
    (parsePhase { envW with loadLibraries := fun _ => Except.error (Ex.isc "lib load failed") }
        false treeDef).1 = Except.ok () ∧
    (false = false) ∧
    (commitPhase { envW with loadLibraries := fun _ => Except.error (Ex.isc "lib load failed") }
        (parsePhase { envW with loadLibraries := fun _ => Except.error (Ex.isc "lib load failed") }
          false treeDef).2.1.cfg
        stateW.cfgMgr.current stateW.activeSocket stateW.d2Active).1 =
      Except.error (Ex.isc "lib load failed") ∧
    (configureDhcp6Server
        { envW with loadLibraries := fun _ => Except.error (Ex.isc "lib load failed") }
        (some treeDef) false stateW).1.status = 2 :=
  ⟨rfl, rfl, rfl,
   (c6_status_codes
      { envW with loadLibraries := fun _ => Except.error (Ex.isc "lib load failed") }
      treeDef false stateW).2.2.2.2 (Ex.isc "lib load failed") rfl rfl rfl⟩
